import Mathlib

/-!
Verification of the SREGym problem-lifecycle orchestration engine.

The definitions below are a shallow embedding of the Python sources:
`aiopslab/orchestrator/orchestrator.py`, `aiopslab/orchestrator/oracles/detection.py`,
`aiopslab/orchestrator/oracles/mitigation.py`,
`srearena/conductor/oracles/pod_scheduled_mitigation.py`, and
`sregym/conductor/problems/kafka_queue_problems.py`.
Collaborators of the orchestrator that are not part of the sources
(the `Session` class, the response parser, the `mark_fault_injected`
decorator, `is_exact_match`, the `Oracle`/`Problem` base classes) are either
abstracted as parameters or modelled from the specification, as noted on
each definition.
-/

namespace SREGym

/-- Python values as they flow through the orchestrator: a submission is
either a string, `None` (a bare `submit()` with no arguments), or some other
non-string object. -/
inductive PyVal where
  | none
  | str (s : String)
  | int (n : Int)
  deriving DecidableEq, Repr

/-- Values stored in an oracle result dict (`{"success": bool, ...}`). -/
inductive RVal where
  | bool (b : Bool)
  | str (s : String)
  | num (n : Int)
  deriving DecidableEq, Repr

/-- A Python dict used as an oracle result mapping. -/
abbrev Dict := List (String × RVal)

/-- Dict lookup, `d.get(k)` returning `None` when the key is absent. -/
def Dict.get (d : Dict) (k : String) : Option RVal :=
  (d.find? (fun p => p.1 == k)).map (·.2)

/-- Dict assignment `d[k] = v`: overwrite the existing binding or append. -/
def Dict.set (d : Dict) (k : String) (v : RVal) : Dict :=
  match d with
  | [] => [(k, v)]
  | (k', v') :: rest => if k' == k then (k, v) :: rest else (k', v') :: Dict.set rest k v

/-- Python truthiness of a result value, as tested by
`results.get("success")` in `Orchestrator.ask_env`. -/
def RVal.truthy : RVal → Bool
  | .bool b => b
  | .str s => s ≠ ""
  | .num n => n ≠ 0

/-- Truthiness of `d.get(k)`: a missing key is `None`, which is falsy. -/
def Dict.truthyGet (d : Dict) (k : String) : Bool :=
  match d.get k with
  | some v => v.truthy
  | none => false

/-- One trace entry `{"role": ..., "content": ...}` appended to
`Session.history`. -/
structure TraceEntry where
  role : String
  content : String
  deriving DecidableEq, Repr

/-- Values stored in `Session.results`: a stage-result mapping
(for keys such as "Detection Results") or a numeric timing metric
(for keys such as "TTD"). -/
inductive SVal where
  | dict (d : Dict)
  | num (n : Int)
  deriving DecidableEq, Repr

/-- The `Session.results` accumulator. -/
abbrev Results := List (String × SVal)

/-- Lookup in `Session.results`. -/
def Results.get (r : Results) (k : String) : Option SVal :=
  (r.find? (fun p => p.1 == k)).map (·.2)

/-- Assignment into `Session.results` (`Session.add_result`, last write wins). -/
def Results.set (r : Results) (k : String) (v : SVal) : Results :=
  match r with
  | [] => [(k, v)]
  | (k', v') :: rest => if k' == k then (k, v) :: rest else (k', v') :: Results.set rest k v

/-! ## Detection oracle (`aiopslab/orchestrator/oracles/detection.py`) -/

/-- Whitespace characters removed by Python `str.strip()` (ASCII range). -/
def pyIsSpace (c : Char) : Bool :=
  c = ' ' || c = '\t' || c = '\n' || c = '\r' || c = '\x0b' || c = '\x0c'

/-- Python `str.strip()`: drop whitespace from both ends. -/
def pyStrip (s : String) : String :=
  String.mk (((s.data.dropWhile pyIsSpace).reverse.dropWhile pyIsSpace).reverse)

/-- Python `str.lower()` (ASCII case folding). -/
def pyLower (s : String) : String :=
  String.mk (s.data.map Char.toLower)

/-- Modelled from the spec: `is_exact_match` from
`aiopslab.orchestrator.evaluators.quantitative` is not under the sources;
§1 scopes concrete oracle matching as "exact string comparisons", so it is
modelled as string equality. -/
def is_exact_match (a b : String) : Bool :=
  a == b

/-- The expected answer hard-coded in `DetectionOracle.evaluate`. -/
def expected_answer : String := "Yes"

/-- Shallow embedding of `DetectionOracle.evaluate(solution, trace, duration)`.
The oracle mutates `self.problem.results` ("Detection Accuracy" via
`add_result`, then `results["success"]`) and returns
`self.problem.eval(solution, trace, duration)`. `Problem.eval` is not under
the sources; modelled from the spec (§4.2: the oracle call returns the result
mapping including `success`) as returning the problem's accumulated results
mapping. `trace` and `duration` are carried to mirror the signature. -/
def DetectionOracle.evaluate (solution : PyVal) (_trace : List TraceEntry)
    (_duration : Nat) (problemResults : Dict) : Dict :=
  match solution with
  | .str s =>
      if is_exact_match (pyLower (pyStrip s)) (pyLower expected_answer) then
        (problemResults.set "Detection Accuracy" (.str "Correct")).set "success" (.bool true)
      else
        (problemResults.set "Detection Accuracy" (.str "Incorrect")).set "success" (.bool false)
  | _ =>
      (problemResults.set "Detection Accuracy" (.str "Invalid Format")).set "success" (.bool false)

/-! ## Mitigation oracle (`aiopslab/orchestrator/oracles/mitigation.py`) -/

/-- Shallow embedding of `MitigationOracle.evaluate(solution, trace, duration)`,
which returns `self.problem.eval(solution, trace, duration)`. `Problem.eval`
is not under the sources; modelled from the spec (§4.2) as returning the
problem's accumulated results mapping. -/
def MitigationOracle.evaluate (_solution : PyVal) (_trace : List TraceEntry)
    (_duration : Nat) (problemResults : Dict) : Dict :=
  problemResults

/-! ## Session and orchestrator state (`aiopslab/orchestrator/orchestrator.py`) -/

/-- Modelled from the spec: `aiopslab.session.Session` is not under the
sources. Per §3/§4.1 it records the ordered history, the accumulated
results mapping, the last submitted solution, and start/end bookkeeping. -/
structure Session where
  history : List TraceEntry
  results : Results
  solution : PyVal
  started : Bool
  ended : Bool
  start_time : Nat
  deriving DecidableEq, Repr

/-- An oracle as consumed by `ask_env`: a function of the submitted solution,
the trace and the duration that either returns a result dict or raises. -/
abbrev OracleFn := PyVal → List TraceEntry → Nat → Except String Dict

/-- The problem instance as the orchestrator sees it: the three stage
oracles (any may be absent — per the spec §3, and e.g.
`KafkaQueueProblems.__init__` attaches only `localization_oracle`), the
fault-injected flag, and a count of `recover_fault` invocations so that
"exactly once" is provable. -/
structure Problem where
  detection_oracle : Option OracleFn
  localization_oracle : Option OracleFn
  mitigation_oracle : Option OracleFn
  injected : Bool
  recoverCalls : Nat

/-- `Problem.recover_fault()` as invoked by the orchestrator: performs the
recovery (clearing the injected flag) and is counted. -/
def Problem.recover_fault (p : Problem) : Problem :=
  { p with injected := false, recoverCalls := p.recoverCalls + 1 }

/-- `Problem.inject_fault()` as invoked by the orchestrator. -/
def Problem.inject_fault (p : Problem) : Problem :=
  { p with injected := true }

/-- The mutable orchestrator state used by `ask_env` / `start_problem`:
current stage, the session, the problem bound to the session, whether the
`exit_cleanup_fault` atexit callback is registered, the wall clock, and
`execution_start_time`. -/
structure Orch where
  stage : String
  session : Session
  problem : Problem
  atexitRegistered : Bool
  now : Nat
  execution_start_time : Nat

/-- The result of `ResponseParser.parse`: an api name and argument list. -/
structure ParsedCall where
  api_name : String
  args : List PyVal
  deriving DecidableEq, Repr

/-- Modelled from the spec: `aiopslab.orchestrator.parser.ResponseParser` is
not under the sources. Per §6 it either parses the agent text into a call
form or raises on malformed syntax; it is kept abstract as a function into
`Except` (the error carries the exception's string form). -/
abbrev Parser := String → Except String ParsedCall

/-- The fixed rejection message returned by `ask_env` for any recognized
call that is not `submit`. -/
def rejectionMessage : String := "[❌] Only `submit(...)` is supported in this interface."

/-- The non-raising return values of `ask_env`: a string message,
`SubmissionStatus.VALID_SUBMISSION`, or Python's implicit `None` (control
falls off the end of the function when no stage branch matches). -/
inductive AskEnvRet where
  | msg (s : String)
  | validSubmission
  | pynone
  deriving DecidableEq, Repr

/-- The outcome of one `ask_env` call: a returned value or a raised
exception. State updates made before the raise are kept, as in Python. -/
inductive AskEnvOut where
  | ret (r : AskEnvRet)
  | raised (e : String)
  deriving DecidableEq, Repr

/-- Shallow embedding of `Orchestrator.ask_env` (lines 82–115). Parse
errors are recorded in the trace and returned as messages; non-`submit`
calls get the fixed rejection message; a `submit` call stores the solution
and runs the stage dispatch. Accessing an absent oracle attribute raises
`AttributeError`, as in Python. In the `mitigation` branch the source
records the result and returns without assigning a new stage. -/
def Orchestrator.askEnv (parse : Parser) (o : Orch) (input : String) : AskEnvOut × Orch :=
  match parse input with
  | .error e =>
      (.ret (.msg e),
       { o with session := { o.session with history := o.session.history ++ [⟨"env", e⟩] } })
  | .ok parsed =>
      if parsed.api_name ≠ "submit" then
        (.ret (.msg rejectionMessage), o)
      else
        let solution := parsed.args.head?.getD PyVal.none
        let o := { o with session := { o.session with solution := solution } }
        let duration := o.now - o.session.start_time
        let trace := o.session.history
        if o.stage = "detection" then
          match o.problem.detection_oracle with
          | none => (.raised "AttributeError: detection_oracle", o)
          | some oracle =>
            match oracle solution trace duration with
            | .error e => (.raised e, o)
            | .ok results =>
                (.ret .validSubmission,
                 { o with
                     session := { o.session with
                       results := o.session.results.set "Detection Results" (.dict results) },
                     stage := if results.truthyGet "success" then "localization" else "mitigation" })
        else if o.stage = "localization" then
          match o.problem.localization_oracle with
          | none => (.raised "AttributeError: localization_oracle", o)
          | some oracle =>
            match oracle solution trace duration with
            | .error e => (.raised e, o)
            | .ok results =>
                (.ret .validSubmission,
                 { o with
                     session := { o.session with
                       results := o.session.results.set "Localization Results" (.dict results) },
                     stage := "mitigation" })
        else if o.stage = "mitigation" then
          match o.problem.mitigation_oracle with
          | none => (.raised "AttributeError: mitigation_oracle", o)
          | some oracle =>
            match oracle solution trace duration with
            | .error e => (.raised e, o)
            | .ok results =>
                (.ret .validSubmission,
                 { o with
                     session := { o.session with
                       results := o.session.results.set "Mitigation Results" (.dict results) } })
        else
          (.ret .pynone, o)

/-- The final report dict returned by `start_problem` (lines 168–173). -/
structure Report where
  history : List TraceEntry
  final_state : String
  results : Results
  framework_overhead : Int
  deriving DecidableEq, Repr

/-- The timing keys probed when computing framework overhead (line 162). -/
def time_keys : List String := ["TTD", "TTL", "TTA", "TTM"]

/-- Shallow embedding of the code of `start_problem` after the interactive
loop (lines 141–173): end and persist the session, recover the fault and
unregister the atexit callback inside a critical section, tear down
external collaborators (no orchestrator-state effect), compute the
framework overhead and build the returned report. -/
def Orchestrator.finishRun (o : Orch) : Report × Orch :=
  let o := { o with session := { o.session with ended := true } }
  let o := { o with problem := o.problem.recover_fault, atexitRegistered := false }
  let elapsed : Int := (o.now : Int) - (o.execution_start_time : Int)
  let results := o.session.results
  let key := time_keys.find? (fun k => (results.get k).isSome)
  let overhead : Int :=
    match key with
    | some k =>
        elapsed - (match results.get k with
                   | some (.num n) => n
                   | _ => 0)
    | none => elapsed
  (⟨o.session.history, "done", results, overhead⟩, o)

/-- The outcome of a run of `start_problem`: a returned report, a
propagated exception, or a loop that is still running when the agent
script is exhausted. -/
inductive RunOut where
  | completed (r : Report)
  | raisedOut (e : String)
  | pending
  deriving DecidableEq, Repr

/-- Shallow embedding of the interactive loop of `start_problem`
(lines 123–139) driven by a finite script of agent actions. Each round
appends the agent's action to the trace (`ask_agent`) and runs `ask_env`;
an exception triggers the `except` branch (recover the fault, unregister
the atexit callback, re-raise); a valid submission with stage `done`
breaks out of the loop into `finishRun`. -/
def Orchestrator.runLoop (parse : Parser) : List String → Orch → RunOut × Orch
  | [], o => (.pending, o)
  | action :: rest, o =>
    let o := { o with session := { o.session with history := o.session.history ++ [⟨"assistant", action⟩] } }
    match Orchestrator.askEnv parse o action with
    | (.raised e, o') =>
        (.raisedOut e, { o' with problem := o'.problem.recover_fault, atexitRegistered := false })
    | (.ret r, o') =>
        if r = AskEnvRet.validSubmission ∧ o'.stage = "done" then
          let (rep, o'') := Orchestrator.finishRun o'
          (.completed rep, o'')
        else
          Orchestrator.runLoop parse rest o'

/-- Shallow embedding of `Orchestrator.start_problem` (lines 117–173):
start the session, run the interactive loop and, on normal exit, the
teardown code embodied in `finishRun`. -/
def Orchestrator.start_problem (parse : Parser) (script : List String) (o : Orch) : RunOut × Orch :=
  let o := { o with session := { o.session with started := true } }
  Orchestrator.runLoop parse script o

/-- The critical section of `init_problem` (lines 62–64): inject the fault,
then register the abnormal-exit recovery callback. -/
def Orchestrator.injectAndRegister (o : Orch) : Orch :=
  { o with problem := o.problem.inject_fault, atexitRegistered := true }

/-- A fresh orchestrator state as built by `__init__`/`init_problem`
before fault injection: stage `detection`, empty session. -/
def Orchestrator.initState (p : Problem) (t0 : Nat) : Orch :=
  { stage := "detection"
    session := { history := [], results := [], solution := .none,
                 started := false, ended := false, start_time := t0 }
    problem := p
    atexitRegistered := false
    now := t0
    execution_start_time := t0 }

/-! ## Fault lifecycle guard (`sregym/conductor/problems/kafka_queue_problems.py`) -/

/-- State of a `KafkaQueueProblems` instance as far as the fault lifecycle
is concerned: the fault-injected marker maintained by the
`mark_fault_injected` guard, and the log of side effects performed on the
`OtelFaultInjector`. -/
structure KafkaQueueProblems where
  fault_injected : Bool
  injectorCalls : List String
  deriving DecidableEq, Repr

/-- Shallow embedding of `KafkaQueueProblems.inject_fault`, whose body calls
`self.injector.inject_fault("kafkaQueueProblems")`. Modelled from the spec:
the `mark_fault_injected` decorator (`sregym.utils.decorators`) is not
under the sources; per §4.4 the guard runs the body only when the problem
is not currently marked injected (a second call without an intervening
recovery is a no-op) and sets the marker. -/
def KafkaQueueProblems.inject_fault (p : KafkaQueueProblems) : KafkaQueueProblems :=
  if p.fault_injected then p
  else { fault_injected := true,
         injectorCalls := p.injectorCalls ++ ["inject kafkaQueueProblems"] }

/-- Shallow embedding of `KafkaQueueProblems.recover_fault`, whose body
calls `self.injector.recover_fault("kafkaQueueProblems")`. Modelled from
the spec: per §4.4 the guard runs the body only when the problem is
currently marked injected and clears the marker on success. -/
def KafkaQueueProblems.recover_fault (p : KafkaQueueProblems) : KafkaQueueProblems :=
  if p.fault_injected then
    { fault_injected := false,
      injectorCalls := p.injectorCalls ++ ["recover kafkaQueueProblems"] }
  else p

/-! ## Polling mitigation oracle
(`srearena/conductor/oracles/pod_scheduled_mitigation.py`) -/

/-- A node taint as read from `node.spec.taints`. -/
structure Taint where
  key : String
  value : String
  effect : String
  deriving DecidableEq, Repr

/-- The cluster as observed and acted on by
`PodScheduledMitigationOracle.evaluate`, abstracted over a state type:
the phases of the pods selected by `app=<svc>`, the taints of the faulty
node (or an `ApiException` with a status code), the effect of the
auto-untaint `kubectl` command, and the cluster's evolution during one
`time.sleep(4)`. -/
structure PodClusterModel (σ : Type) where
  podPhases : σ → List String
  readNode : σ → Except Nat (List Taint)
  untaint : σ → σ
  tick : σ → σ

/-- The `sre-fault=blocked:NoSchedule` taint test from the source. -/
def sreFaultTaintPresent (taints : List Taint) : Bool :=
  taints.any fun t => t.key == "sre-fault" && t.value == "blocked" && t.effect == "NoSchedule"

/-- Shallow embedding of the poll loop of
`PodScheduledMitigationOracle.evaluate`. The source loops
`while time.time() < deadline` with `deadline = start + 180` and
`time.sleep(4)` at the end of each iteration, so polls happen at
t = 0, 4, 8, …, 176 — 45 polls — after which the deadline has elapsed and
the loop returns `{"success": False}`; the recursion is indexed by the
number of polls left before the deadline. A non-404 `ApiException` from
`read_node` is re-raised; a 404 means the taint is absent. -/
def PodScheduledMitigationOracle.evalLoop (C : PodClusterModel σ) : σ → Nat → Except Nat Dict
  | _, 0 => .ok [("success", RVal.bool false)]
  | s, left + 1 =>
    let phases := C.podPhases s
    let pods_running := (!phases.isEmpty) && phases.all (· == "Running")
    let pods_pending := (!phases.isEmpty) && phases.all (· == "Pending")
    match C.readNode s with
    | .error status =>
        if status == 404 then
          -- taint_present = False
          if pods_running then .ok [("success", RVal.bool true)]
          else PodScheduledMitigationOracle.evalLoop C (C.tick s) left
        else .error status
    | .ok taints =>
        let taint_present := sreFaultTaintPresent taints
        if pods_running && !taint_present then .ok [("success", RVal.bool true)]
        else
          let s := if pods_pending && taint_present then C.untaint s else s
          PodScheduledMitigationOracle.evalLoop C (C.tick s) left

/-- Shallow embedding of `PodScheduledMitigationOracle.evaluate` (timeout
180 s, 4 s poll interval: 45 polls before the deadline elapses). -/
def PodScheduledMitigationOracle.evaluate (C : PodClusterModel σ) (s : σ) : Except Nat Dict :=
  PodScheduledMitigationOracle.evalLoop C s 45

/-! ## Oracle call signatures, as written in the sources (for the
polymorphic-dispatch contract) -/

/-- The parameter list (after `self`) of `DetectionOracle.evaluate` in
`aiopslab/orchestrator/oracles/detection.py`. -/
def DetectionOracle.evaluateParams : List String := ["solution", "trace", "duration"]

/-- The parameter list (after `self`) of `MitigationOracle.evaluate` in
`aiopslab/orchestrator/oracles/mitigation.py`. -/
def MitigationOracle.evaluateParams : List String := ["solution", "trace", "duration"]

/-- The parameter list (after `self`) of
`PodScheduledMitigationOracle.evaluate` in
`srearena/conductor/oracles/pod_scheduled_mitigation.py`: `def evaluate(self) -> dict`. -/
def PodScheduledMitigationOracle.evaluateParams : List String := []

/-- The method name through which `Orchestrator.ask_env` invokes each stage
oracle (lines 101, 107, 113: `prob.<stage>_oracle.eval(solution, trace, duration)`). -/
def Orchestrator.oracleDispatchMethod : String := "eval"

/-- The arguments passed at the orchestrator's oracle dispatch sites. -/
def Orchestrator.oracleDispatchArgs : List String := ["solution", "trace", "duration"]

/-! ## Helper lemmas -/

theorem Dict.get_set_self (d : Dict) (k : String) (v : RVal) :
    (d.set k v).get k = some v := by
  induction d with
  | nil => simp [Dict.set, Dict.get, List.find?]
  | cons p rest ih =>
      by_cases h : p.1 == k
      · simp [Dict.set, Dict.get, List.find?, h]
      · simp only [Dict.set] at *
        rw [if_neg h]
        simpa [Dict.get, List.find?, h] using ih

theorem Dict.get_set_ne (d : Dict) (k k' : String) (v : RVal) (h : k' ≠ k) :
    (d.set k v).get k' = d.get k' := by
  have hkk : (k == k') = false := beq_eq_false_iff_ne.mpr (Ne.symm h)
  induction d with
  | nil => simp [Dict.set, Dict.get, List.find?, hkk]
  | cons p rest ih =>
      by_cases hp : p.1 == k
      · have hpk : p.1 = k := beq_iff_eq.mp hp
        have hp' : (p.1 == k') = false := by rw [hpk]; exact hkk
        simp [Dict.set, hp, Dict.get, List.find?, hkk, hp']
      · simp only [Dict.set]
        rw [if_neg hp]
        by_cases hq : p.1 == k'
        · simp [Dict.get, List.find?, hq]
        · simp only [Dict.get, List.find?] at *
          simp [hq] at *
          exact ih

/-! ## Claim theorems -/

/-- C10: the detection oracle records `success = true` exactly when the
solution is a string whose stripped, lowercased form equals "yes"; every
non-string solution (including the `None` of a bare `submit()`) records
`success = false` and detection accuracy "Invalid Format". -/
theorem detection_success_iff_yes (sol : PyVal) (trace : List TraceEntry)
    (duration : Nat) (pr : Dict) :
    ((DetectionOracle.evaluate sol trace duration pr).get "success" =
        some (RVal.bool true) ↔ ∃ s, sol = PyVal.str s ∧ pyLower (pyStrip s) = "yes") ∧
    ((∀ s, sol ≠ PyVal.str s) →
      (DetectionOracle.evaluate sol trace duration pr).get "success" =
          some (RVal.bool false) ∧
      (DetectionOracle.evaluate sol trace duration pr).get "Detection Accuracy" =
          some (RVal.str "Invalid Format")) := by
  have hne : "Detection Accuracy" ≠ "success" := by decide
  have hyes : pyLower expected_answer = "yes" := by decide
  constructor
  · cases sol with
    | str s =>
        simp only [DetectionOracle.evaluate]
        by_cases h : is_exact_match (pyLower (pyStrip s)) (pyLower expected_answer)
        · rw [if_pos h, Dict.get_set_self]
          have : pyLower (pyStrip s) = "yes" := by
            have h2 := beq_iff_eq.mp h
            rwa [hyes] at h2
          simp [this]
        · rw [if_neg h, Dict.get_set_self]
          have : ¬ pyLower (pyStrip s) = "yes" := by
            intro hc
            exact h (beq_iff_eq.mpr (by rw [hc, hyes]))
          simp [this]
    | none =>
        simp [DetectionOracle.evaluate, Dict.get_set_self]
    | int n =>
        simp [DetectionOracle.evaluate, Dict.get_set_self]
  · intro hns
    cases sol with
    | str s => exact absurd rfl (hns s)
    | none =>
        simp only [DetectionOracle.evaluate]
        exact ⟨Dict.get_set_self _ _ _, by rw [Dict.get_set_ne _ _ _ _ hne, Dict.get_set_self]⟩
    | int n =>
        simp only [DetectionOracle.evaluate]
        exact ⟨Dict.get_set_self _ _ _, by rw [Dict.get_set_ne _ _ _ _ hne, Dict.get_set_self]⟩

/-- Witness for C10: `" YES "` succeeds, and the `None` of a bare
`submit()` yields `success = false` with accuracy "Invalid Format". -/
theorem detection_success_iff_yes_witness :
    (DetectionOracle.evaluate (PyVal.str " YES ") [] 0 []).get "success" =
        some (RVal.bool true) ∧
    (DetectionOracle.evaluate PyVal.none [] 0 []).get "Detection Accuracy" =
        some (RVal.str "Invalid Format") := by
  refine ⟨?_, ?_⟩
  · exact (detection_success_iff_yes (PyVal.str " YES ") [] 0 []).1.mpr
      ⟨" YES ", rfl, by decide⟩
  · exact ((detection_success_iff_yes PyVal.none [] 0 []).2 (by intro s h; cases h)).2

/-- C4: double injection performs no second side effect, recovery runs only
when the problem is marked fault-injected (clearing the marker), and double
recovery attempts no second recovery. -/
theorem fault_guard_idempotent (p : KafkaQueueProblems) :
    p.inject_fault.inject_fault = p.inject_fault ∧
    p.recover_fault.recover_fault = p.recover_fault ∧
    (p.fault_injected = false → p.recover_fault = p) ∧
    p.recover_fault.fault_injected = false ∧
    p.inject_fault.fault_injected = true := by
  cases hp : p.fault_injected <;>
    simp [KafkaQueueProblems.inject_fault, KafkaQueueProblems.recover_fault, hp]

/-- Witness for C4 at a fresh (not injected) problem. -/
theorem fault_guard_idempotent_witness :
    KafkaQueueProblems.recover_fault ⟨false, []⟩ = ⟨false, []⟩ ∧
    (KafkaQueueProblems.inject_fault ⟨false, []⟩).fault_injected = true := by
  exact ⟨(fault_guard_idempotent ⟨false, []⟩).2.2.1 rfl,
         (fault_guard_idempotent ⟨false, []⟩).2.2.2.2⟩

/-! ## Concrete fixtures used by witnesses and counterexamples -/

/-- A concrete instantiation of the abstract response parser: recognizes a
few `submit(...)` forms and `noop`; anything else is a syntax error. -/
def parseFixture : Parser := fun s =>
  if s = "submit(Yes)" then .ok ⟨"submit", [PyVal.str "Yes"]⟩
  else if s = "submit(No)" then .ok ⟨"submit", [PyVal.str "No"]⟩
  else if s = "submit()" then .ok ⟨"submit", []⟩
  else if s = "noop" then .ok ⟨"noop", []⟩
  else .error "ParseError: unrecognized action"

/-- A detection oracle fixture built from the embedded `DetectionOracle`. -/
def detectionOracleFixture : OracleFn := fun sol trace duration =>
  .ok (DetectionOracle.evaluate sol trace duration [])

/-- An always-successful oracle fixture. -/
def happyOracleFixture : OracleFn := fun _ _ _ => .ok [("success", RVal.bool true)]

/-- An oracle fixture that raises. -/
def raisingOracleFixture : OracleFn := fun _ _ _ => .error "RuntimeError: oracle failure"

/-- A problem fixture with all three stage oracles configured. -/
def problemFixture : Problem :=
  { detection_oracle := some detectionOracleFixture
    localization_oracle := some happyOracleFixture
    mitigation_oracle := some happyOracleFixture
    injected := false
    recoverCalls := 0 }

/-- A problem fixture with no detection oracle (as in
`KafkaQueueProblems.__init__`, which attaches only `localization_oracle`). -/
def problemNoDetectionFixture : Problem :=
  { detection_oracle := none
    localization_oracle := some happyOracleFixture
    mitigation_oracle := none
    injected := false
    recoverCalls := 0 }

/-- A problem fixture whose detection oracle raises. -/
def problemRaisingFixture : Problem :=
  { detection_oracle := some raisingOracleFixture
    localization_oracle := some happyOracleFixture
    mitigation_oracle := some happyOracleFixture
    injected := false
    recoverCalls := 0 }

/-- Orchestrator state right after `init_problem` for `problemFixture`. -/
def orchFixture : Orch :=
  Orchestrator.injectAndRegister (Orchestrator.initState problemFixture 0)

/-- Orchestrator state for the oracle-less problem. -/
def orchNoDetectionFixture : Orch :=
  Orchestrator.injectAndRegister (Orchestrator.initState problemNoDetectionFixture 0)

/-- Orchestrator state for the raising-oracle problem. -/
def orchRaisingFixture : Orch :=
  Orchestrator.injectAndRegister (Orchestrator.initState problemRaisingFixture 0)

/-- Orchestrator state in the `mitigation` stage. -/
def orchMitigationFixture : Orch := { orchFixture with stage := "mitigation" }

/-- C8: a parse error is answered with the error message, which is recorded
in the trace, and any recognized non-`submit` call is answered with the
fixed rejection message; neither raises, and neither changes the stage or
the recorded results. -/
theorem non_submit_leaves_state (parse : Parser) (o : Orch) (input : String) :
    (∀ e, parse input = .error e →
      Orchestrator.askEnv parse o input =
        (.ret (.msg e),
         { o with session := { o.session with
             history := o.session.history ++ [⟨"env", e⟩] } }) ∧
      (Orchestrator.askEnv parse o input).2.stage = o.stage ∧
      (Orchestrator.askEnv parse o input).2.session.results = o.session.results) ∧
    (∀ p, parse input = .ok p → p.api_name ≠ "submit" →
      Orchestrator.askEnv parse o input = (.ret (.msg rejectionMessage), o)) := by
  constructor
  · intro e he
    refine ⟨?_, ?_⟩
    · simp [Orchestrator.askEnv, he]
    · simp [Orchestrator.askEnv, he]
  · intro p hp hs
    simp [Orchestrator.askEnv, hp, hs]

/-- Witness for C8: the action `"noop"` is answered with the fixed
rejection message and the state is untouched; an unparreadable action is
answered with the parse error, recorded in the trace. -/
theorem non_submit_leaves_state_witness :
    Orchestrator.askEnv parseFixture orchFixture "noop" =
      (.ret (.msg rejectionMessage), orchFixture) ∧
    (Orchestrator.askEnv parseFixture orchFixture "ls -la").2.stage = orchFixture.stage := by
  refine ⟨?_, ?_⟩
  · exact (non_submit_leaves_state parseFixture orchFixture "noop").2
      ⟨"noop", []⟩ rfl (by decide)
  · exact (((non_submit_leaves_state parseFixture orchFixture "ls -la").1
      "ParseError: unrecognized action" rfl).2).1

/-- C3: a valid submission in the `detection` stage invokes the detection
oracle, records its result under "Detection Results", and moves the stage
to `localization` exactly when the result's `success` is truthy, to
`mitigation` otherwise — detection failure is never followed by
`localization`. -/
theorem detection_transition (parse : Parser) (o : Orch) (input : String)
    (p : ParsedCall) (f : OracleFn) (d : Dict)
    (hp : parse input = .ok p) (hs : p.api_name = "submit")
    (hst : o.stage = "detection")
    (ho : o.problem.detection_oracle = some f)
    (hf : f (p.args.head?.getD PyVal.none) o.session.history (o.now - o.session.start_time) = .ok d) :
    (Orchestrator.askEnv parse o input).1 = .ret .validSubmission ∧
    (Orchestrator.askEnv parse o input).2.session.results =
      o.session.results.set "Detection Results" (.dict d) ∧
    (Orchestrator.askEnv parse o input).2.stage =
      (if d.truthyGet "success" then "localization" else "mitigation") ∧
    (d.get "success" = some (RVal.bool true) →
      (Orchestrator.askEnv parse o input).2.stage = "localization") ∧
    (d.get "success" = some (RVal.bool false) →
      (Orchestrator.askEnv parse o input).2.stage = "mitigation") ∧
    (d.get "success" = Option.none →
      (Orchestrator.askEnv parse o input).2.stage = "mitigation") := by
  have hmain : Orchestrator.askEnv parse o input =
      (.ret .validSubmission,
       { o with
           session := { o.session with
             solution := p.args.head?.getD PyVal.none,
             results := o.session.results.set "Detection Results" (.dict d) },
           stage := if d.truthyGet "success" then "localization" else "mitigation" }) := by
    simp [Orchestrator.askEnv, hp, hs, hst, ho, hf]
  refine ⟨by rw [hmain], by rw [hmain], by rw [hmain], ?_, ?_, ?_⟩
  · intro h
    rw [hmain]
    simp [Dict.truthyGet, h, RVal.truthy]
  · intro h
    rw [hmain]
    simp [Dict.truthyGet, h, RVal.truthy]
  · intro h
    rw [hmain]
    simp [Dict.truthyGet, h]

/-- Witness for C3: Scenarios B and C — `submit(Yes)` in `detection` moves
the stage to `localization`, `submit(No)` moves it directly to
`mitigation`. -/
theorem detection_transition_witness :
    (Orchestrator.askEnv parseFixture orchFixture "submit(Yes)").2.stage = "localization" ∧
    (Orchestrator.askEnv parseFixture orchFixture "submit(No)").2.stage = "mitigation" := by
  refine ⟨?_, ?_⟩
  · exact (detection_transition parseFixture orchFixture "submit(Yes)"
      ⟨"submit", [PyVal.str "Yes"]⟩ detectionOracleFixture
      (DetectionOracle.evaluate (PyVal.str "Yes") [] 0 [])
      rfl rfl rfl rfl rfl).2.2.2.1 (by decide)
  · exact (detection_transition parseFixture orchFixture "submit(No)"
      ⟨"submit", [PyVal.str "No"]⟩ detectionOracleFixture
      (DetectionOracle.evaluate (PyVal.str "No") [] 0 [])
      rfl rfl rfl rfl rfl).2.2.2.2.1 (by decide)

/-- C1: the `mitigation` branch of `ask_env` records the mitigation result
and returns `VALID_SUBMISSION`, but never assigns `stage = "done"`; the
loop's exit test `env_response == VALID_SUBMISSION and self.stage == "done"`
therefore never fires, and the loop keeps running after the mitigation
oracle has been graded. -/
theorem mitigation_stage_never_done :
    (Orchestrator.askEnv parseFixture orchMitigationFixture "submit(Yes)").1 =
      .ret .validSubmission ∧
    (Orchestrator.askEnv parseFixture orchMitigationFixture "submit(Yes)").2.stage =
      "mitigation" ∧
    (Orchestrator.runLoop parseFixture ["submit(Yes)", "submit(Yes)"]
      orchMitigationFixture).1 = RunOut.pending := by
  refine ⟨by decide, by decide, by decide⟩

/-- Helper: every run of the poll loop ends with an `ok` dict of the form
`{"success": b}` or with a re-raised non-404 `ApiException`. -/
theorem evalLoop_shape {σ : Type} (C : PodClusterModel σ) (s : σ) (n : Nat) :
    (∃ b, PodScheduledMitigationOracle.evalLoop C s n = .ok [("success", RVal.bool b)]) ∨
    (∃ st, st ≠ 404 ∧ PodScheduledMitigationOracle.evalLoop C s n = .error st) := by
  induction n generalizing s with
  | zero => exact .inl ⟨false, rfl⟩
  | succ n ih =>
      cases hr : C.readNode s with
      | error status =>
          by_cases h4 : status = 404
          · subst h4
            by_cases hrun : ((!(C.podPhases s).isEmpty) && (C.podPhases s).all (· == "Running")) = true
            · exact .inl ⟨true, by simp [PodScheduledMitigationOracle.evalLoop, hr, hrun]⟩
            · simpa [PodScheduledMitigationOracle.evalLoop, hr, hrun] using ih (C.tick s)
          · refine .inr ⟨status, h4, ?_⟩
            simp [PodScheduledMitigationOracle.evalLoop, hr, h4]
      | ok taints =>
          by_cases hcond : (((!(C.podPhases s).isEmpty) && (C.podPhases s).all (· == "Running")) &&
              !(sreFaultTaintPresent taints)) = true
          · exact .inl ⟨true, by simp [PodScheduledMitigationOracle.evalLoop, hr, hcond]⟩
          · by_cases hpend : (((!(C.podPhases s).isEmpty) && (C.podPhases s).all (· == "Pending")) &&
                sreFaultTaintPresent taints) = true
            · simpa [PodScheduledMitigationOracle.evalLoop, hr, hcond, hpend]
                using ih (C.tick (C.untaint s))
            · simpa [PodScheduledMitigationOracle.evalLoop, hr, hcond, hpend] using ih (C.tick s)

/-- C9: the polling mitigation oracle's evaluation always terminates with a
`success` verdict (or a re-raised non-404 cluster API error); it succeeds
immediately when the pods are all Running with the fault taint absent, and
when no poll within the 180-second deadline ever observes the success
condition it returns `success = false` instead of blocking. -/
theorem polling_oracle_bounded {σ : Type} (C : PodClusterModel σ) (s : σ) :
    ((∃ b, PodScheduledMitigationOracle.evaluate C s = .ok [("success", RVal.bool b)]) ∨
     (∃ st, st ≠ 404 ∧ PodScheduledMitigationOracle.evaluate C s = .error st)) ∧
    (∀ taints, C.readNode s = .ok taints → sreFaultTaintPresent taints = false →
      ((!(C.podPhases s).isEmpty) && (C.podPhases s).all (· == "Running")) = true →
      PodScheduledMitigationOracle.evaluate C s = .ok [("success", RVal.bool true)]) ∧
    ((∀ t : σ, ((!(C.podPhases t).isEmpty) && (C.podPhases t).all (· == "Running")) = false) →
     (∀ t st, C.readNode t = .error st → st = 404) →
      PodScheduledMitigationOracle.evaluate C s = .ok [("success", RVal.bool false)]) := by
  refine ⟨evalLoop_shape C s 45, ?_, ?_⟩
  · intro taints hr htaint hrun
    show PodScheduledMitigationOracle.evalLoop C s (44 + 1) = _
    simp [PodScheduledMitigationOracle.evalLoop, hr, htaint, hrun]
  · intro hnever hapi
    have main : ∀ (n : Nat) (t : σ), PodScheduledMitigationOracle.evalLoop C t n =
        .ok [("success", RVal.bool false)] := by
      intro n
      induction n with
      | zero => intro t; rfl
      | succ n ih =>
          intro t
          cases hr : C.readNode t with
          | error status =>
              have h4 : status = 404 := hapi t status hr
              subst h4
              simp [PodScheduledMitigationOracle.evalLoop, hr, hnever t, ih]
          | ok taints =>
              simp [PodScheduledMitigationOracle.evalLoop, hr, hnever t, ih]
    exact main 45 s

/-- A one-state cluster with no pods and an untainted node: the success
condition never holds. -/
def emptyClusterFixture : PodClusterModel Unit :=
  { podPhases := fun _ => [], readNode := fun _ => .ok [], untaint := id, tick := id }

/-- A one-state cluster whose pods are all Running with no taint. -/
def runningClusterFixture : PodClusterModel Unit :=
  { podPhases := fun _ => ["Running"], readNode := fun _ => .ok [], untaint := id, tick := id }

/-- Witness for C9: Scenario D — a cluster that never reaches the expected
condition yields `success = false` after the deadline, and a healthy
cluster yields `success = true` at once. -/
theorem polling_oracle_bounded_witness :
    PodScheduledMitigationOracle.evaluate runningClusterFixture () =
      .ok [("success", RVal.bool true)] ∧
    PodScheduledMitigationOracle.evaluate emptyClusterFixture () =
      .ok [("success", RVal.bool false)] := by
  refine ⟨?_, ?_⟩
  · exact (polling_oracle_bounded runningClusterFixture ()).2.1 [] rfl rfl (by decide)
  · exact (polling_oracle_bounded emptyClusterFixture ()).2.2
      (fun t => rfl) (fun t st h => Except.noConfusion h)

/-- Helper: `ask_env` never touches the problem, the atexit registration,
the clock, or the execution start time. -/
theorem askEnv_frame (parse : Parser) (o : Orch) (input : String) :
    (Orchestrator.askEnv parse o input).2.problem = o.problem ∧
    (Orchestrator.askEnv parse o input).2.atexitRegistered = o.atexitRegistered ∧
    (Orchestrator.askEnv parse o input).2.now = o.now ∧
    (Orchestrator.askEnv parse o input).2.execution_start_time = o.execution_start_time ∧
    (Orchestrator.askEnv parse o input).2.session.start_time = o.session.start_time := by
  cases hp : parse input with
  | error e => simp [Orchestrator.askEnv, hp]
  | ok p =>
      by_cases hs : p.api_name = "submit"
      · by_cases h1 : o.stage = "detection"
        · cases ho : o.problem.detection_oracle with
          | none => simp [Orchestrator.askEnv, hp, hs, h1, ho]
          | some f =>
              cases hf : f (p.args.head?.getD PyVal.none) o.session.history
                  (o.now - o.session.start_time) with
              | error e => simp [Orchestrator.askEnv, hp, hs, h1, ho, hf]
              | ok d => simp [Orchestrator.askEnv, hp, hs, h1, ho, hf]
        · by_cases h2 : o.stage = "localization"
          · cases ho : o.problem.localization_oracle with
            | none => simp [Orchestrator.askEnv, hp, hs, h1, h2, ho]
            | some f =>
                cases hf : f (p.args.head?.getD PyVal.none) o.session.history
                    (o.now - o.session.start_time) with
                | error e => simp [Orchestrator.askEnv, hp, hs, h1, h2, ho, hf]
                | ok d => simp [Orchestrator.askEnv, hp, hs, h1, h2, ho, hf]
          · by_cases h3 : o.stage = "mitigation"
            · cases ho : o.problem.mitigation_oracle with
              | none => simp [Orchestrator.askEnv, hp, hs, h1, h2, h3, ho]
              | some f =>
                  cases hf : f (p.args.head?.getD PyVal.none) o.session.history
                      (o.now - o.session.start_time) with
                  | error e => simp [Orchestrator.askEnv, hp, hs, h1, h2, h3, ho, hf]
                  | ok d => simp [Orchestrator.askEnv, hp, hs, h1, h2, h3, ho, hf]
            · simp [Orchestrator.askEnv, hp, hs, h1, h2, h3]
      · simp [Orchestrator.askEnv, hp, hs]

/-- Helper: `ask_env` only ever appends to the session history. -/
theorem askEnv_history (parse : Parser) (o : Orch) (input : String) :
    ∃ l, (Orchestrator.askEnv parse o input).2.session.history = o.session.history ++ l := by
  cases hp : parse input with
  | error e => exact ⟨[⟨"env", e⟩], by simp [Orchestrator.askEnv, hp]⟩
  | ok p =>
      by_cases hs : p.api_name = "submit"
      · by_cases h1 : o.stage = "detection"
        · cases ho : o.problem.detection_oracle with
          | none => exact ⟨[], by simp [Orchestrator.askEnv, hp, hs, h1, ho]⟩
          | some f =>
              cases hf : f (p.args.head?.getD PyVal.none) o.session.history
                  (o.now - o.session.start_time) with
              | error e => exact ⟨[], by simp [Orchestrator.askEnv, hp, hs, h1, ho, hf]⟩
              | ok d => exact ⟨[], by simp [Orchestrator.askEnv, hp, hs, h1, ho, hf]⟩
        · by_cases h2 : o.stage = "localization"
          · cases ho : o.problem.localization_oracle with
            | none => exact ⟨[], by simp [Orchestrator.askEnv, hp, hs, h1, h2, ho]⟩
            | some f =>
                cases hf : f (p.args.head?.getD PyVal.none) o.session.history
                    (o.now - o.session.start_time) with
                | error e => exact ⟨[], by simp [Orchestrator.askEnv, hp, hs, h1, h2, ho, hf]⟩
                | ok d => exact ⟨[], by simp [Orchestrator.askEnv, hp, hs, h1, h2, ho, hf]⟩
          · by_cases h3 : o.stage = "mitigation"
            · cases ho : o.problem.mitigation_oracle with
              | none => exact ⟨[], by simp [Orchestrator.askEnv, hp, hs, h1, h2, h3, ho]⟩
              | some f =>
                  cases hf : f (p.args.head?.getD PyVal.none) o.session.history
                      (o.now - o.session.start_time) with
                  | error e =>
                      exact ⟨[], by simp [Orchestrator.askEnv, hp, hs, h1, h2, h3, ho, hf]⟩
                  | ok d =>
                      exact ⟨[], by simp [Orchestrator.askEnv, hp, hs, h1, h2, h3, ho, hf]⟩
            · exact ⟨[], by simp [Orchestrator.askEnv, hp, hs, h1, h2, h3]⟩
      · exact ⟨[], by simp [Orchestrator.askEnv, hp, hs]⟩

/-- Helper: the post-loop teardown recovers the fault exactly once,
unregisters the atexit callback, and reports the session's history and
results unchanged. -/
theorem finishRun_frame (o : Orch) :
    (Orchestrator.finishRun o).2.problem.recoverCalls = o.problem.recoverCalls + 1 ∧
    (Orchestrator.finishRun o).2.atexitRegistered = false ∧
    (Orchestrator.finishRun o).1.history = o.session.history ∧
    (Orchestrator.finishRun o).1.results = o.session.results ∧
    (Orchestrator.finishRun o).1.final_state = "done" ∧
    (Orchestrator.finishRun o).2.session.history = o.session.history := by
  simp [Orchestrator.finishRun, Problem.recover_fault]

/-- C2: for every terminating run — normal completion or an exception
escaping the interactive loop — `recover_fault` has been invoked exactly
once and the abnormal-exit callback has been unregistered by the time
control returns (so the atexit fallback cannot double-fire); in addition
the post-loop teardown on its own always performs exactly one recovery. -/
theorem recover_fault_once (parse : Parser) (script : List String) (o : Orch)
    (h0 : o.problem.recoverCalls = 0) :
    (∀ e o', Orchestrator.start_problem parse script o = (.raisedOut e, o') →
      o'.problem.recoverCalls = 1 ∧ o'.atexitRegistered = false) ∧
    (∀ rep o', Orchestrator.start_problem parse script o = (.completed rep, o') →
      o'.problem.recoverCalls = 1 ∧ o'.atexitRegistered = false) ∧
    (∀ o₀ : Orch, (Orchestrator.finishRun o₀).2.problem.recoverCalls =
      o₀.problem.recoverCalls + 1 ∧ (Orchestrator.finishRun o₀).2.atexitRegistered = false) := by
  have main : ∀ (sc : List String) (o₁ : Orch), o₁.problem.recoverCalls = 0 →
      ∀ r o', Orchestrator.runLoop parse sc o₁ = (r, o') →
        (∀ e, r = RunOut.raisedOut e →
          o'.problem.recoverCalls = 1 ∧ o'.atexitRegistered = false) ∧
        (∀ rep, r = RunOut.completed rep →
          o'.problem.recoverCalls = 1 ∧ o'.atexitRegistered = false) := by
    intro sc
    induction sc with
    | nil =>
        intro o₁ h1 r o' hrun
        simp only [Orchestrator.runLoop, Prod.mk.injEq] at hrun
        obtain ⟨hr, ho'⟩ := hrun
        subst hr
        exact ⟨fun e he => RunOut.noConfusion he, fun rep he => RunOut.noConfusion he⟩
    | cons action rest ih =>
        intro o₁ h1 r o' hrun
        simp only [Orchestrator.runLoop] at hrun
        rcases hask : Orchestrator.askEnv parse
            { o₁ with session := { o₁.session with
                history := o₁.session.history ++ [⟨"assistant", action⟩] } } action
          with ⟨out, o₃⟩
        rw [hask] at hrun
        have hframe := askEnv_frame parse
          { o₁ with session := { o₁.session with
              history := o₁.session.history ++ [⟨"assistant", action⟩] } } action
        rw [hask] at hframe
        have hprob : o₃.problem = o₁.problem := hframe.1
        cases out with
        | raised e =>
            simp only [Prod.mk.injEq] at hrun
            obtain ⟨hr, ho'⟩ := hrun
            subst hr
            subst ho'
            refine ⟨fun e' _ => ?_, fun rep hrep => RunOut.noConfusion hrep⟩
            simp [Problem.recover_fault, hprob, h1]
        | ret r₀ =>
            dsimp only at hrun
            by_cases hc : r₀ = AskEnvRet.validSubmission ∧ o₃.stage = "done"
            · rw [if_pos hc] at hrun
              have hfin := finishRun_frame o₃
              rcases hfr : Orchestrator.finishRun o₃ with ⟨rep₀, o₄⟩
              rw [hfr] at hrun hfin
              simp only [Prod.mk.injEq] at hrun
              obtain ⟨hr, ho'⟩ := hrun
              subst hr
              subst ho'
              refine ⟨fun e he => RunOut.noConfusion he, fun rep hrep => ?_⟩
              refine ⟨?_, hfin.2.1⟩
              simp only at hfin
              rw [hfin.1, hprob, h1]
            · rw [if_neg hc] at hrun
              exact ih o₃ (by rw [hprob]; exact h1) r o' hrun
  refine ⟨?_, ?_, fun o₀ => ⟨(finishRun_frame o₀).1, (finishRun_frame o₀).2.1⟩⟩
  · intro e o' h
    exact (main script _ (by simpa using h0) _ o' h).1 e rfl
  · intro rep o' h
    exact (main script _ (by simpa using h0) _ o' h).2 rep rfl

/-- Witness for C2: Scenario E — the detection oracle raises, the loop
aborts, and the orchestrator state handed back with the propagated
exception shows exactly one `recover_fault` call and the atexit callback
unregistered. -/
theorem recover_fault_once_witness :
    (Orchestrator.start_problem parseFixture ["submit(Yes)"] orchRaisingFixture).2.problem.recoverCalls = 1 ∧
    (Orchestrator.start_problem parseFixture ["submit(Yes)"] orchRaisingFixture).2.atexitRegistered = false := by
  have h1 : (Orchestrator.start_problem parseFixture ["submit(Yes)"] orchRaisingFixture).1 =
      RunOut.raisedOut "RuntimeError: oracle failure" := by decide
  have h : Orchestrator.start_problem parseFixture ["submit(Yes)"] orchRaisingFixture =
      (RunOut.raisedOut "RuntimeError: oracle failure",
       (Orchestrator.start_problem parseFixture ["submit(Yes)"] orchRaisingFixture).2) :=
    Prod.ext h1 rfl
  exact (recover_fault_once parseFixture ["submit(Yes)"] orchRaisingFixture rfl).1
    "RuntimeError: oracle failure" _ h

/-- Counterexample for C5: a run aborted because the detection oracle
raised does not return any value to the caller — the outcome of
`start_problem` is the propagated exception, not a report containing the
trace. -/
theorem abnormal_run_no_report_counterexample :
    (Orchestrator.start_problem parseFixture ["submit(Yes)"] orchRaisingFixture).1 =
      RunOut.raisedOut "RuntimeError: oracle failure" := by decide

/-- C5 amended: on normal completion the returned report carries the full
session history and all recorded results; when an exception escapes the
interactive loop, no report is returned — the exception propagates — but
the session state still holds every trace entry recorded up to the
failure. -/
theorem run_report_content (o : Orch) :
    ((Orchestrator.finishRun o).1.history = o.session.history ∧
     (Orchestrator.finishRun o).1.results = o.session.results) ∧
    (∀ (parse : Parser) (script : List String) (e : String) (o' : Orch),
      Orchestrator.runLoop parse script o = (RunOut.raisedOut e, o') →
      ∃ l, o'.session.history = o.session.history ++ l) := by
  have main : ∀ (parse : Parser) (script : List String) (o₁ : Orch) (e : String) (o' : Orch),
      Orchestrator.runLoop parse script o₁ = (RunOut.raisedOut e, o') →
      ∃ l, o'.session.history = o₁.session.history ++ l := by
    intro parse script
    induction script with
    | nil =>
        intro o₁ e o' hrun
        simp only [Orchestrator.runLoop, Prod.mk.injEq] at hrun
        exact absurd hrun.1 (fun h => RunOut.noConfusion h)
    | cons action rest ih =>
        intro o₁ e o' hrun
        simp only [Orchestrator.runLoop] at hrun
        rcases hask : Orchestrator.askEnv parse
            { o₁ with session := { o₁.session with
                history := o₁.session.history ++ [⟨"assistant", action⟩] } } action
          with ⟨out, o₃⟩
        rw [hask] at hrun
        have hhist := askEnv_history parse
          { o₁ with session := { o₁.session with
              history := o₁.session.history ++ [⟨"assistant", action⟩] } } action
        rw [hask] at hhist
        obtain ⟨l, hl⟩ := hhist
        cases out with
        | raised e₀ =>
            simp only [Prod.mk.injEq] at hrun
            obtain ⟨_, ho'⟩ := hrun
            subst ho'
            exact ⟨⟨"assistant", action⟩ :: l, by simp only at hl; rw [hl]; simp⟩
        | ret r₀ =>
            dsimp only at hrun
            by_cases hc : r₀ = AskEnvRet.validSubmission ∧ o₃.stage = "done"
            · rw [if_pos hc] at hrun
              simp only [Prod.mk.injEq] at hrun
              exact absurd hrun.1 (fun h => RunOut.noConfusion h)
            · rw [if_neg hc] at hrun
              obtain ⟨l', hl'⟩ := ih o₃ e o' hrun
              refine ⟨⟨"assistant", action⟩ :: l ++ l', ?_⟩
              rw [hl']
              simp only at hl
              rw [hl]
              simp
  exact ⟨⟨(finishRun_frame o).2.2.1, (finishRun_frame o).2.2.2.1⟩,
         fun parse script e o' h => main parse script o e o' h⟩

/-- Witness for C5 amended: the teardown report of a concrete state carries
its history, and the state handed back by the aborted raising-oracle run
still extends the original trace. -/
theorem run_report_content_witness :
    (Orchestrator.finishRun orchFixture).1.history = orchFixture.session.history ∧
    ∃ l, (Orchestrator.runLoop parseFixture ["submit(Yes)"] orchRaisingFixture).2.session.history =
          orchRaisingFixture.session.history ++ l := by
  have h1 : (Orchestrator.runLoop parseFixture ["submit(Yes)"] orchRaisingFixture).1 =
      RunOut.raisedOut "RuntimeError: oracle failure" := by decide
  have h : Orchestrator.runLoop parseFixture ["submit(Yes)"] orchRaisingFixture =
      (RunOut.raisedOut "RuntimeError: oracle failure",
       (Orchestrator.runLoop parseFixture ["submit(Yes)"] orchRaisingFixture).2) :=
    Prod.ext h1 rfl
  exact ⟨(run_report_content orchFixture).1.1,
         (run_report_content orchRaisingFixture).2 parseFixture ["submit(Yes)"]
           "RuntimeError: oracle failure" _ h⟩

/-- Counterexample for C7: a submission in the `detection` stage against a
problem with no detection oracle (as `KafkaQueueProblems` attaches none)
raises `AttributeError`, which escapes `ask_env` and aborts the run — the
evaluation is not a non-fatal no-op. -/
theorem missing_oracle_fatal_counterexample :
    (Orchestrator.askEnv parseFixture orchNoDetectionFixture "submit(Yes)").1 =
      AskEnvOut.raised "AttributeError: detection_oracle" ∧
    (Orchestrator.runLoop parseFixture ["submit(Yes)"] orchNoDetectionFixture).1 =
      RunOut.raisedOut "AttributeError: detection_oracle" := by
  exact ⟨by decide, by decide⟩

/-- A problem fixture with only a mitigation oracle (as in
`NoOpApp.__init__`, which attaches no localization oracle). -/
def problemOnlyMitigationFixture : Problem :=
  { detection_oracle := none
    localization_oracle := none
    mitigation_oracle := some happyOracleFixture
    injected := false
    recoverCalls := 0 }

/-- Orchestrator state in the `localization` stage whose problem has no
localization oracle. -/
def orchNoLocalizationFixture : Orch :=
  { Orchestrator.injectAndRegister (Orchestrator.initState problemOnlyMitigationFixture 0) with
      stage := "localization" }

/-- Orchestrator state in the `mitigation` stage whose problem has no
mitigation oracle. -/
def orchNoMitigationFixture : Orch := { orchNoDetectionFixture with stage := "mitigation" }

/-- C7 amended: a submission received while the current stage — any of
`detection`, `localization`, `mitigation` — has no corresponding oracle
configured raises `AttributeError`; the exception escapes `ask_env` and
aborts the run through the loop's exception path (which still recovers the
fault exactly once before propagating), rather than being treated as a
no-op or an "unsupported" result. -/
theorem missing_oracle_raises (parse : Parser) (o : Orch) (input : String) (p : ParsedCall)
    (hp : parse input = .ok p) (hs : p.api_name = "submit") :
    (o.stage = "detection" → o.problem.detection_oracle = none →
      (Orchestrator.askEnv parse o input).1 = .raised "AttributeError: detection_oracle" ∧
      (∀ rest, (Orchestrator.runLoop parse (input :: rest) o).1 =
          RunOut.raisedOut "AttributeError: detection_oracle" ∧
        (Orchestrator.runLoop parse (input :: rest) o).2.problem.recoverCalls =
          o.problem.recoverCalls + 1)) ∧
    (o.stage = "localization" → o.problem.localization_oracle = none →
      (Orchestrator.askEnv parse o input).1 = .raised "AttributeError: localization_oracle" ∧
      (∀ rest, (Orchestrator.runLoop parse (input :: rest) o).1 =
          RunOut.raisedOut "AttributeError: localization_oracle" ∧
        (Orchestrator.runLoop parse (input :: rest) o).2.problem.recoverCalls =
          o.problem.recoverCalls + 1)) ∧
    (o.stage = "mitigation" → o.problem.mitigation_oracle = none →
      (Orchestrator.askEnv parse o input).1 = .raised "AttributeError: mitigation_oracle" ∧
      (∀ rest, (Orchestrator.runLoop parse (input :: rest) o).1 =
          RunOut.raisedOut "AttributeError: mitigation_oracle" ∧
        (Orchestrator.runLoop parse (input :: rest) o).2.problem.recoverCalls =
          o.problem.recoverCalls + 1)) := by
  refine ⟨fun hst ho => ⟨?_, fun rest => ⟨?_, ?_⟩⟩,
          fun hst ho => ⟨?_, fun rest => ⟨?_, ?_⟩⟩,
          fun hst ho => ⟨?_, fun rest => ⟨?_, ?_⟩⟩⟩
  · simp [Orchestrator.askEnv, hp, hs, hst, ho]
  · simp [Orchestrator.runLoop, Orchestrator.askEnv, hp, hs, hst, ho]
  · simp [Orchestrator.runLoop, Orchestrator.askEnv, hp, hs, hst, ho, Problem.recover_fault]
  · simp [Orchestrator.askEnv, hp, hs, hst, ho]
  · simp [Orchestrator.runLoop, Orchestrator.askEnv, hp, hs, hst, ho]
  · simp [Orchestrator.runLoop, Orchestrator.askEnv, hp, hs, hst, ho, Problem.recover_fault]
  · simp [Orchestrator.askEnv, hp, hs, hst, ho]
  · simp [Orchestrator.runLoop, Orchestrator.askEnv, hp, hs, hst, ho]
  · simp [Orchestrator.runLoop, Orchestrator.askEnv, hp, hs, hst, ho, Problem.recover_fault]

/-- Witness for C7 amended: all three stages exercised concretely — the
aborted detection-stage run shows exactly one fault recovery, and the
localization- and mitigation-stage submissions raise the corresponding
`AttributeError`. -/
theorem missing_oracle_raises_witness :
    (Orchestrator.runLoop parseFixture ["submit(Yes)"] orchNoDetectionFixture).2.problem.recoverCalls =
      orchNoDetectionFixture.problem.recoverCalls + 1 ∧
    (Orchestrator.askEnv parseFixture orchNoLocalizationFixture "submit(Yes)").1 =
      AskEnvOut.raised "AttributeError: localization_oracle" ∧
    (Orchestrator.askEnv parseFixture orchNoMitigationFixture "submit(Yes)").1 =
      AskEnvOut.raised "AttributeError: mitigation_oracle" := by
  refine ⟨?_, ?_, ?_⟩
  · exact (((missing_oracle_raises parseFixture orchNoDetectionFixture "submit(Yes)"
      ⟨"submit", [PyVal.str "Yes"]⟩ rfl rfl).1 rfl rfl).2 []).2
  · exact ((missing_oracle_raises parseFixture orchNoLocalizationFixture "submit(Yes)"
      ⟨"submit", [PyVal.str "Yes"]⟩ rfl rfl).2.1 rfl rfl).1
  · exact ((missing_oracle_raises parseFixture orchNoMitigationFixture "submit(Yes)"
      ⟨"submit", [PyVal.str "Yes"]⟩ rfl rfl).2.2 rfl rfl).1

/-- Helper: the detection oracle's result always carries a boolean
`success` key. -/
theorem detection_success_bool (sol : PyVal) (trace : List TraceEntry)
    (duration : Nat) (pr : Dict) :
    ∃ b, (DetectionOracle.evaluate sol trace duration pr).get "success" =
      some (RVal.bool b) := by
  cases sol with
  | str s =>
      by_cases h : is_exact_match (pyLower (pyStrip s)) (pyLower expected_answer) = true
      · exact ⟨true, by simp [DetectionOracle.evaluate, h, Dict.get_set_self]⟩
      · exact ⟨false, by simp [DetectionOracle.evaluate, h, Dict.get_set_self]⟩
  | none => exact ⟨false, by simp [DetectionOracle.evaluate, Dict.get_set_self]⟩
  | int n => exact ⟨false, by simp [DetectionOracle.evaluate, Dict.get_set_self]⟩

/-- Counterexample for C6: the srearena pod-scheduled mitigation oracle's
`evaluate` does not take the `(solution, trace, duration)` parameters, and
the orchestrator's dispatch method is named `eval`, not `evaluate`. -/
theorem oracle_contract_counterexample :
    PodScheduledMitigationOracle.evaluateParams ≠ ["solution", "trace", "duration"] ∧
    Orchestrator.oracleDispatchMethod ≠ "evaluate" := by
  exact ⟨by decide, by decide⟩

/-- C6 amended: the orchestrator dispatches every stage oracle through a
three-argument `eval(solution, trace, duration)` call; the aiopslab
detection and mitigation oracles declare `evaluate(solution, trace,
duration)` — the detection oracle's result always carries a boolean
`success` key — and the srearena pod-scheduled mitigation oracle also only
ever returns mappings with a boolean `success` key, but its `evaluate`
takes no arguments, so no single `evaluate(solution, trace, duration)`
call form covers every oracle variant. -/
theorem oracle_contract_amended {σ : Type} (C : PodClusterModel σ) (s : σ) :
    Orchestrator.oracleDispatchMethod = "eval" ∧
    Orchestrator.oracleDispatchArgs = ["solution", "trace", "duration"] ∧
    DetectionOracle.evaluateParams = ["solution", "trace", "duration"] ∧
    MitigationOracle.evaluateParams = ["solution", "trace", "duration"] ∧
    PodScheduledMitigationOracle.evaluateParams = [] ∧
    (∀ sol trace duration pr, ∃ b,
      (DetectionOracle.evaluate sol trace duration pr).get "success" =
        some (RVal.bool b)) ∧
    (∀ d, PodScheduledMitigationOracle.evaluate C s = .ok d →
      ∃ b, d = [("success", RVal.bool b)]) := by
  refine ⟨rfl, rfl, rfl, rfl, rfl, detection_success_bool, ?_⟩
  intro d hd
  simp only [PodScheduledMitigationOracle.evaluate] at hd
  rcases evalLoop_shape C s 45 with ⟨b, hb⟩ | ⟨st, _, he⟩
  · rw [hb] at hd
    exact ⟨b, (Except.ok.inj hd).symm⟩
  · rw [he] at hd
    exact Except.noConfusion hd

/-- Witness for C6 amended at concrete inputs. -/
theorem oracle_contract_amended_witness :
    Orchestrator.oracleDispatchMethod = "eval" ∧
    (∃ b, (DetectionOracle.evaluate PyVal.none [] 0 []).get "success" =
      some (RVal.bool b)) ∧
    (∃ b, [("success", RVal.bool false)] = [("success", RVal.bool b)]) := by
  refine ⟨(oracle_contract_amended emptyClusterFixture ()).1,
          (oracle_contract_amended emptyClusterFixture ()).2.2.2.2.2.1 PyVal.none [] 0 [],
          (oracle_contract_amended emptyClusterFixture ()).2.2.2.2.2.2
            [("success", RVal.bool false)] rfl⟩

end SREGym
